import Mathlib

/-!
Shallow embedding of `src/aws/aws/backstage.py` (`BackstageEcsStack`), an
AWS CDK stack definition that assembles a declarative graph of cloud
resource declarations: a VPC, three security groups, an application load
balancer with one listener, an ECS cluster, an S3 bucket, an Aurora
PostgreSQL serverless-v2 database cluster, two IAM roles, a Fargate task
definition with one container, a Fargate service, and one CfnOutput.

Each resource constructor of the CDK API used by the source is modelled as
a Lean structure recording exactly the properties the source sets;
mutating calls on an already-constructed resource
(`add_ingress_rule`, `add_to_policy`, `add_container`, `add_targets`,
`node.add_dependency`) are modelled as pure functions returning the
updated resource, and the source's sequential mutation becomes
let-shadowing in `BackstageEcsStack.build`, which mirrors the body of
`BackstageEcsStack.__init__` line by line.

Unresolved deploy-time attribute references (CDK tokens such as
`db_cluster.cluster_endpoint.hostname` or `alb.load_balancer_dns_name`)
are modelled by the inductive `StrVal`: a string value that is either a
literal, an attribute reference to a named resource, or a concatenation
(for the f-string `"http://{...}"`).
-/

namespace Backstage

/-- The deployment context: the construct scope name, the stack id, and the
account/region environment overrides passed through `**kwargs`. -/
structure DeployContext where
  scope : String
  id : String
  account : String
  region : String
deriving DecidableEq, Repr

/-- A string value in the declaration graph: a plain literal, a deploy-time
attribute reference to a resource (a CDK token), or a concatenation of two
such values (the `f"http://{...}"` interpolation). -/
inductive StrVal where
  | lit (s : String)
  | attr (resourceName attributeName : String)
  | concat (a b : StrVal)
deriving DecidableEq, Repr

/-- The resource references contained in a string value. -/
def StrVal.refs : StrVal → List String
  | .lit _ => []
  | .attr r _ => [r]
  | .concat a b => a.refs ++ b.refs

/-- The source of a security-group ingress rule: either another security
group (by logical name) or an IPv4 CIDR range. -/
inductive PeerSource where
  | securityGroup (logicalName : String)
  | ipv4Cidr (cidr : String)
deriving DecidableEq, Repr

/-- `ec2.Peer.any_ipv4()`: the open IPv4 range. -/
def Peer.any_ipv4 : PeerSource := .ipv4Cidr "0.0.0.0/0"

/-- Whether an ingress source is a public (open) IPv4 address range. -/
def PeerSource.isPublicRange : PeerSource → Bool
  | .ipv4Cidr c => c = "0.0.0.0/0"
  | .securityGroup _ => false

/-- A protocol/port-range specification (`ec2.Port`). -/
structure Port where
  protocol : String
  fromPort : Nat
  toPort : Nat
deriving DecidableEq, Repr

/-- `ec2.Port.tcp(p)`: TCP on the single port `p`. -/
def Port.tcp (p : Nat) : Port := ⟨"tcp", p, p⟩

/-- One ingress rule of a security group. -/
structure IngressRule where
  source : PeerSource
  port : Port
  description : String
deriving DecidableEq, Repr

/-- `ec2.SecurityGroup`: logical name, owning VPC, outbound policy and the
list of ingress rules added so far. -/
structure SecurityGroup where
  logicalName : String
  vpcRef : String
  allowAllOutbound : Bool
  ingressRules : List IngressRule
deriving DecidableEq, Repr

/-- `SecurityGroup.add_ingress_rule`: appends the rule; CDK skips a rule
identical to one already present on the group. -/
def SecurityGroup.add_ingress_rule (sg : SecurityGroup) (src : PeerSource)
    (p : Port) (description : String) : SecurityGroup :=
  let rule : IngressRule := ⟨src, p, description⟩
  if rule ∈ sg.ingressRules then sg
  else { sg with ingressRules := sg.ingressRules ++ [rule] }

/-- The security-group logical names referenced by a rule's source. -/
def IngressRule.sourceRefs (r : IngressRule) : List String :=
  match r.source with
  | .securityGroup n => [n]
  | .ipv4Cidr _ => []

/-- Reference edges leaving a security group: its VPC and every security
group used as an ingress source. -/
def SecurityGroup.edges (sg : SecurityGroup) : List (String × String) :=
  (sg.vpcRef :: sg.ingressRules.flatMap IngressRule.sourceRefs).map
    (fun t => (sg.logicalName, t))

/-- `ec2.Vpc`. -/
structure Vpc where
  logicalName : String
  maxAzs : Nat
deriving DecidableEq, Repr

/-- `elbv2.ApplicationLoadBalancer`. -/
structure ApplicationLoadBalancer where
  logicalName : String
  vpcRef : String
  internetFacing : Bool
  securityGroupRef : String
deriving DecidableEq, Repr

/-- `alb.load_balancer_dns_name`: a deploy-time token for the DNS name. -/
def ApplicationLoadBalancer.load_balancer_dns_name
    (a : ApplicationLoadBalancer) : StrVal :=
  .attr a.logicalName "load_balancer_dns_name"

/-- A target produced by `fargate_service.load_balancer_target(...)`:
the service's logical name plus the container name and port to register. -/
structure LoadBalancerTarget where
  serviceRef : String
  containerName : String
  containerPort : Nat
deriving DecidableEq, Repr

/-- `elbv2.HealthCheck` with the fields the source sets. -/
structure HealthCheck where
  path : String
  intervalSeconds : Nat
  timeoutSeconds : Nat
  healthyThresholdCount : Nat
  unhealthyThresholdCount : Nat
deriving DecidableEq, Repr

/-- The target group created by `listener.add_targets`. -/
structure TargetGroup where
  id : String
  port : Nat
  targets : List LoadBalancerTarget
  healthCheck : HealthCheck
deriving DecidableEq, Repr

/-- The listener created by `alb.add_listener`; `isOpen` records the
`open=True` keyword. -/
structure Listener where
  id : String
  loadBalancerRef : String
  port : Nat
  isOpen : Bool
  targetGroups : List TargetGroup
deriving DecidableEq, Repr

/-- `listener.add_targets`: appends the new target group. -/
def Listener.add_targets (l : Listener) (tg : TargetGroup) : Listener :=
  { l with targetGroups := l.targetGroups ++ [tg] }

/-- `ecs.Cluster`. -/
structure Cluster where
  logicalName : String
  vpcRef : String
deriving DecidableEq, Repr

/-- `s3.Bucket`. -/
structure Bucket where
  logicalName : String
  publicReadAccess : Bool
deriving DecidableEq, Repr

/-- `bucket.bucket_name`: a deploy-time token for the bucket name. -/
def Bucket.bucket_name (b : Bucket) : StrVal := .attr b.logicalName "bucket_name"

/-- `RemovalPolicy`. -/
inductive RemovalPolicy where
  | destroy
  | retain
  | snapshot
deriving DecidableEq, Repr

/-- `rds.Credentials.from_generated_secret(username)`. -/
structure Credentials where
  username : String
  fromGeneratedSecret : Bool
deriving DecidableEq, Repr

/-- `rds.InstanceProps` with the fields the source sets. -/
structure InstanceProps where
  instanceType : String
  vpcRef : String
  subnetType : String
deriving DecidableEq, Repr

/-- `rds.DatabaseCluster` with the properties the source sets; the
serverless capacities are the exact rationals 0.5 and 4. -/
structure DatabaseCluster where
  logicalName : String
  engine : String
  securityGroupRefs : List String
  credentials : Credentials
  defaultDatabaseName : String
  removalPolicy : RemovalPolicy
  instanceProps : InstanceProps
  serverlessV2MinCapacity : Rat
  serverlessV2MaxCapacity : Rat
deriving DecidableEq, Repr

/-- `db_cluster.secret`: the reference to the generated database secret. -/
def DatabaseCluster.secret (c : DatabaseCluster) : String :=
  c.logicalName ++ "/Secret"

/-- `db_cluster.cluster_endpoint.hostname`: a deploy-time token. -/
def DatabaseCluster.cluster_endpoint_hostname (c : DatabaseCluster) : StrVal :=
  .attr c.logicalName "cluster_endpoint.hostname"

/-- `str(db_cluster.cluster_endpoint.port)`: the port token, stringified. -/
def DatabaseCluster.cluster_endpoint_port_str (c : DatabaseCluster) : StrVal :=
  .attr c.logicalName "cluster_endpoint.port"

/-- `iam.PolicyStatement`. -/
structure PolicyStatement where
  actions : List String
  resources : List String
deriving DecidableEq, Repr

/-- `iam.Role` with the properties the source sets. -/
structure Role where
  logicalName : String
  assumedBy : String
  managedPolicies : List String
  inlineStatements : List PolicyStatement
deriving DecidableEq, Repr

/-- `role.add_to_policy`: appends an inline policy statement. -/
def Role.add_to_policy (r : Role) (s : PolicyStatement) : Role :=
  { r with inlineStatements := r.inlineStatements ++ [s] }

/-- `ecs.RuntimePlatform`. -/
structure RuntimePlatform where
  cpuArchitecture : String
  operatingSystemFamily : String
deriving DecidableEq, Repr

/-- A container secret created by `ecs.Secret.from_secrets_manager`:
the secret it reads and the JSON field extracted from it. -/
structure ContainerSecret where
  secretRef : String
  field : String
deriving DecidableEq, Repr

/-- `ecs.Secret.from_secrets_manager(secret, field=...)`. -/
def Secret.from_secrets_manager (secretRef : String) (field : String) :
    ContainerSecret :=
  ⟨secretRef, field⟩

/-- `ecs.PortMapping` with the field the source sets. -/
structure PortMapping where
  containerPort : Nat
deriving DecidableEq, Repr

/-- `ecs.LogDrivers.aws_logs(...)`: the driver and its stream name option. -/
structure LogDriver where
  driver : String
  streamName : String
deriving DecidableEq, Repr

/-- A container added by `task_definition.add_container`. -/
structure ContainerDefinition where
  name : String
  image : String
  logging : LogDriver
  environment : List (String × StrVal)
  secrets : List (String × ContainerSecret)
  portMappings : List PortMapping
deriving DecidableEq, Repr

/-- `ecs.FargateTaskDefinition` with the properties the source sets. -/
structure FargateTaskDefinition where
  logicalName : String
  memoryLimitMib : Nat
  cpu : Nat
  taskRoleRef : String
  executionRoleRef : String
  runtimePlatform : RuntimePlatform
  containers : List ContainerDefinition
deriving DecidableEq, Repr

/-- `task_definition.add_container`: appends the container. -/
def FargateTaskDefinition.add_container (td : FargateTaskDefinition)
    (c : ContainerDefinition) : FargateTaskDefinition :=
  { td with containers := td.containers ++ [c] }

/-- `ecs.FargateService` with the properties the source sets;
`dependencies` records explicit ordering edges added through
`node.add_dependency`. -/
structure FargateService where
  logicalName : String
  clusterRef : String
  taskDefinitionRef : String
  securityGroupRefs : List String
  desiredCount : Nat
  deploymentControllerType : String
  dependencies : List String
deriving DecidableEq, Repr

/-- `fargate_service.node.add_dependency`: appends an explicit ordering
edge to the named resource. -/
def FargateService.node_add_dependency (s : FargateService) (dep : String) :
    FargateService :=
  { s with dependencies := s.dependencies ++ [dep] }

/-- `fargate_service.load_balancer_target(container_name, container_port)`. -/
def FargateService.load_balancer_target (s : FargateService)
    (containerName : String) (containerPort : Nat) : LoadBalancerTarget :=
  ⟨s.logicalName, containerName, containerPort⟩

/-- `CfnOutput`: a named output value of the stack. -/
structure CfnOutput where
  logicalName : String
  value : StrVal
deriving DecidableEq, Repr

/-- The fully constructed stack: the deployment context plus every resource
declaration bound in `BackstageEcsStack.__init__`, in their final states. -/
structure BackstageEcsStack where
  context : DeployContext
  vpc : Vpc
  ecs_sg : SecurityGroup
  alb_sg : SecurityGroup
  rds_sg : SecurityGroup
  alb : ApplicationLoadBalancer
  listener : Listener
  cluster : Cluster
  bucket : Bucket
  db_cluster : DatabaseCluster
  task_role : Role
  task_execution_role : Role
  task_definition : FargateTaskDefinition
  container : ContainerDefinition
  fargate_service : FargateService
  outputs : List CfnOutput
deriving DecidableEq, Repr

/-- The body of `BackstageEcsStack.__init__`, followed statement by
statement; each mutating call rebinds the mutated resource. -/
def BackstageEcsStack.build (ctx : DeployContext) : BackstageEcsStack :=
  let vpc : Vpc := { logicalName := "BackstageVpc", maxAzs := 2 }
  let ecs_sg : SecurityGroup :=
    { logicalName := "EcsSecurityGroup", vpcRef := vpc.logicalName,
      allowAllOutbound := true, ingressRules := [] }
  let alb_sg : SecurityGroup :=
    { logicalName := "ALBSecurityGroup", vpcRef := vpc.logicalName,
      allowAllOutbound := true, ingressRules := [] }
  let alb_sg := alb_sg.add_ingress_rule Peer.any_ipv4 (Port.tcp 80) "Allow HTTP"
  let rds_sg : SecurityGroup :=
    { logicalName := "RdsSecurityGroup", vpcRef := vpc.logicalName,
      allowAllOutbound := true, ingressRules := [] }
  let rds_sg := rds_sg.add_ingress_rule (.securityGroup ecs_sg.logicalName)
    (Port.tcp 5432) "Allow ECS to connect to RDS"
  let alb : ApplicationLoadBalancer :=
    { logicalName := "CustomALB", vpcRef := vpc.logicalName,
      internetFacing := true, securityGroupRef := alb_sg.logicalName }
  -- `alb.add_listener("ALBListener", port=80, open=True)`: with open=True the
  -- CDK also adds an ingress rule on the load balancer's security group
  -- allowing any IPv4 source on the listener port.
  let alb_sg := alb_sg.add_ingress_rule Peer.any_ipv4 (Port.tcp 80)
    "Allow from anyone on port 80"
  let listener : Listener :=
    { id := "ALBListener", loadBalancerRef := alb.logicalName, port := 80,
      isOpen := true, targetGroups := [] }
  let cluster : Cluster :=
    { logicalName := "BackstageCluster", vpcRef := vpc.logicalName }
  let bucket : Bucket :=
    { logicalName := "BackstageAssets", publicReadAccess := false }
  let db_cluster : DatabaseCluster :=
    { logicalName := "BackstageAuroraDB",
      engine := "aurora-postgres-13.12",
      securityGroupRefs := [rds_sg.logicalName],
      credentials := { username := "postgres", fromGeneratedSecret := true },
      defaultDatabaseName := "backstage",
      removalPolicy := .destroy,
      instanceProps :=
        { instanceType := "t3.medium", vpcRef := vpc.logicalName,
          subnetType := "PRIVATE_WITH_EGRESS" },
      serverlessV2MinCapacity := (0.5 : Rat),
      serverlessV2MaxCapacity := (4 : Rat) }
  let task_role : Role :=
    { logicalName := "BackstageTaskRole",
      assumedBy := "ecs-tasks.amazonaws.com",
      managedPolicies := ["AmazonS3ReadOnlyAccess"],
      inlineStatements := [] }
  let task_execution_role : Role :=
    { logicalName := "BackstageTaskExecutionRole",
      assumedBy := "ecs-tasks.amazonaws.com",
      managedPolicies := [], inlineStatements := [] }
  let task_execution_role := task_execution_role.add_to_policy
    { actions := ["ecr:GetAuthorizationToken", "ecr:BatchCheckLayerAvailability",
                  "ecr:GetDownloadUrlForLayer", "ecr:BatchGetImage"],
      resources := ["*"] }
  let task_definition : FargateTaskDefinition :=
    { logicalName := "BackstageTaskDef",
      memoryLimitMib := 1024, cpu := 512,
      taskRoleRef := task_role.logicalName,
      executionRoleRef := task_execution_role.logicalName,
      runtimePlatform :=
        { cpuArchitecture := "ARM64", operatingSystemFamily := "LINUX" },
      containers := [] }
  let container : ContainerDefinition :=
    { name := "BackstageContainer",
      image := "975050238273.dkr.ecr.ap-south-1.amazonaws.com/backstage",
      logging := { driver := "awslogs", streamName := "Backstage" },
      environment :=
        [("POSTGRES_HOST", db_cluster.cluster_endpoint_hostname),
         ("POSTGRES_USER", .lit "postgres"),
         ("POSTGRES_PORT", db_cluster.cluster_endpoint_port_str),
         ("AWS_S3_BUCKET", bucket.bucket_name),
         ("BASE_URL", .concat (.lit "http://") alb.load_balancer_dns_name)],
      secrets :=
        [("POSTGRES_PASSWORD",
          Secret.from_secrets_manager db_cluster.secret "password")],
      portMappings := [{ containerPort := 7007 }] }
  let task_definition := task_definition.add_container container
  let fargate_service : FargateService :=
    { logicalName := "BackstageService",
      clusterRef := cluster.logicalName,
      taskDefinitionRef := task_definition.logicalName,
      securityGroupRefs := [ecs_sg.logicalName],
      desiredCount := 1,
      deploymentControllerType := "ECS",
      dependencies := [] }
  let listener := listener.add_targets
    { id := "ECS", port := 80,
      targets := [fargate_service.load_balancer_target "BackstageContainer" 7007],
      healthCheck :=
        { path := "/", intervalSeconds := 30, timeoutSeconds := 5,
          healthyThresholdCount := 2, unhealthyThresholdCount := 5 } }
  let fargate_service := fargate_service.node_add_dependency db_cluster.logicalName
  { context := ctx, vpc := vpc, ecs_sg := ecs_sg, alb_sg := alb_sg,
    rds_sg := rds_sg, alb := alb, listener := listener, cluster := cluster,
    bucket := bucket, db_cluster := db_cluster, task_role := task_role,
    task_execution_role := task_execution_role,
    task_definition := task_definition, container := container,
    fargate_service := fargate_service,
    outputs := [{ logicalName := "LoadBalancerDNS",
                  value := alb.load_balancer_dns_name }] }

/-- The set (as a list) of logical resource names declared by the stack. -/
def BackstageEcsStack.logicalNames (s : BackstageEcsStack) : List String :=
  [s.vpc.logicalName, s.ecs_sg.logicalName, s.alb_sg.logicalName,
   s.rds_sg.logicalName, s.alb.logicalName, s.listener.id,
   s.cluster.logicalName, s.bucket.logicalName, s.db_cluster.logicalName,
   s.task_role.logicalName, s.task_execution_role.logicalName,
   s.task_definition.logicalName, s.fargate_service.logicalName]
  ++ s.outputs.map (fun o => o.logicalName)

/-- The reference edges of the declaration graph: every cross-resource
reference recorded in the constructed stack, as (referrer, referent). -/
def BackstageEcsStack.referenceEdges (s : BackstageEcsStack) :
    List (String × String) :=
  s.ecs_sg.edges ++ s.alb_sg.edges ++ s.rds_sg.edges
  ++ [(s.alb.logicalName, s.alb.vpcRef),
      (s.alb.logicalName, s.alb.securityGroupRef)]
  ++ [(s.listener.id, s.listener.loadBalancerRef)]
  ++ s.listener.targetGroups.flatMap
      (fun tg => tg.targets.map (fun t => (s.listener.id, t.serviceRef)))
  ++ [(s.cluster.logicalName, s.cluster.vpcRef)]
  ++ s.db_cluster.securityGroupRefs.map
      (fun r => (s.db_cluster.logicalName, r))
  ++ [(s.db_cluster.logicalName, s.db_cluster.instanceProps.vpcRef)]
  ++ [(s.task_definition.logicalName, s.task_definition.taskRoleRef),
      (s.task_definition.logicalName, s.task_definition.executionRoleRef)]
  ++ s.container.environment.flatMap
      (fun kv => kv.2.refs.map (fun r => (s.task_definition.logicalName, r)))
  ++ s.container.secrets.map
      (fun kv => (s.task_definition.logicalName, kv.2.secretRef))
  ++ [(s.fargate_service.logicalName, s.fargate_service.clusterRef),
      (s.fargate_service.logicalName, s.fargate_service.taskDefinitionRef)]
  ++ s.fargate_service.securityGroupRefs.map
      (fun r => (s.fargate_service.logicalName, r))
  ++ s.fargate_service.dependencies.map
      (fun d => (s.fargate_service.logicalName, d))
  ++ s.outputs.flatMap
      (fun o => o.value.refs.map (fun r => (o.logicalName, r)))

/-- Whether a removal policy marks the resource as destructible on stack
deletion (only `DESTROY` does; `RETAIN` and `SNAPSHOT` protect it). -/
def RemovalPolicy.isDestructible : RemovalPolicy → Bool
  | .destroy => true
  | .retain => false
  | .snapshot => false

/-- C1: For every constructed stack, the database security group has exactly
one ingress rule, its source is the ECS service security group on TCP port
5432, and no ingress rule of that group has a public address range (such as
0.0.0.0/0) as its source. -/
theorem rds_sg_single_ingress_from_ecs (ctx : DeployContext) :
    (BackstageEcsStack.build ctx).rds_sg.ingressRules =
      [⟨.securityGroup (BackstageEcsStack.build ctx).ecs_sg.logicalName,
        Port.tcp 5432, "Allow ECS to connect to RDS"⟩] ∧
    (BackstageEcsStack.build ctx).rds_sg.ingressRules.all
      (fun r => !r.source.isPublicRange) = true :=
  ⟨rfl, rfl⟩

/-- C2: For every constructed stack, the service's explicit dependency edge
set includes the database cluster, ordering the database before the
service. -/
theorem fargate_service_depends_on_db (ctx : DeployContext) :
    (BackstageEcsStack.build ctx).db_cluster.logicalName ∈
      (BackstageEcsStack.build ctx).fargate_service.dependencies := by
  rw [show (BackstageEcsStack.build ctx).fargate_service.dependencies =
        [(BackstageEcsStack.build ctx).db_cluster.logicalName] from rfl]
  exact List.mem_singleton.mpr rfl

/-- C3: For every constructed stack, the load-balancer security group ends
up with exactly two ingress rules, the explicit one and the one added by the
open listener, and every one of its ingress rules is TCP on port 80 only. -/
theorem alb_sg_ingress_only_port_80 (ctx : DeployContext) :
    (BackstageEcsStack.build ctx).alb_sg.ingressRules =
      [⟨Peer.any_ipv4, Port.tcp 80, "Allow HTTP"⟩,
       ⟨Peer.any_ipv4, Port.tcp 80, "Allow from anyone on port 80"⟩] ∧
    (BackstageEcsStack.build ctx).alb_sg.ingressRules.all
      (fun r => r.port == Port.tcp 80) = true :=
  ⟨rfl, rfl⟩

/-- C4: For every constructed stack, the container spec declares container
port 7007, the listener's target registration registers the container named
BackstageContainer on container port 7007, and the listener's external port
is 80. -/
theorem listener_80_to_container_7007 (ctx : DeployContext) :
    (BackstageEcsStack.build ctx).container.name = "BackstageContainer" ∧
    (BackstageEcsStack.build ctx).container.portMappings =
      [{ containerPort := 7007 }] ∧
    (BackstageEcsStack.build ctx).listener.port = 80 ∧
    (BackstageEcsStack.build ctx).listener.targetGroups.map
      (fun tg => tg.targets.map (fun t => (t.containerName, t.containerPort))) =
      [[("BackstageContainer", 7007)]] :=
  ⟨rfl, rfl, rfl, rfl⟩

/-- C5: Two runs of the construction over the same deployment context yield
the same set of logical resource names and the same reference edges. -/
theorem construction_deterministic (c₁ c₂ : DeployContext) (h : c₁ = c₂) :
    (BackstageEcsStack.build c₁).logicalNames =
      (BackstageEcsStack.build c₂).logicalNames ∧
    (BackstageEcsStack.build c₁).referenceEdges =
      (BackstageEcsStack.build c₂).referenceEdges := by
  subst h
  exact ⟨rfl, rfl⟩

/-- Witness for C5 at a concrete deployment context. -/
theorem construction_deterministic_witness :
    (BackstageEcsStack.build
        ⟨"app", "BackstageEcsStack", "975050238273", "ap-south-1"⟩).logicalNames =
      (BackstageEcsStack.build
        ⟨"app", "BackstageEcsStack", "975050238273", "ap-south-1"⟩).logicalNames ∧
    (BackstageEcsStack.build
        ⟨"app", "BackstageEcsStack", "975050238273", "ap-south-1"⟩).referenceEdges =
      (BackstageEcsStack.build
        ⟨"app", "BackstageEcsStack", "975050238273", "ap-south-1"⟩).referenceEdges :=
  construction_deterministic _ _ rfl

/-- C6: For every constructed stack, the database cluster carries the
DESTROY removal policy, which marks it destructible rather than protected
on stack deletion. -/
theorem db_cluster_removal_policy_destroy (ctx : DeployContext) :
    (BackstageEcsStack.build ctx).db_cluster.removalPolicy =
      RemovalPolicy.destroy ∧
    (BackstageEcsStack.build ctx).db_cluster.removalPolicy.isDestructible =
      true :=
  ⟨rfl, rfl⟩

/-- C7: For every constructed stack, the container spec injects exactly the
database host, user and port (as endpoint tokens of the database cluster),
the storage bucket name, the public base URL derived from the load
balancer's DNS name, and the database password drawn from the password
field of the cluster's generated secret. -/
theorem container_injected_values (ctx : DeployContext) :
    (BackstageEcsStack.build ctx).container.environment =
      [("POSTGRES_HOST",
        (BackstageEcsStack.build ctx).db_cluster.cluster_endpoint_hostname),
       ("POSTGRES_USER", StrVal.lit "postgres"),
       ("POSTGRES_PORT",
        (BackstageEcsStack.build ctx).db_cluster.cluster_endpoint_port_str),
       ("AWS_S3_BUCKET", (BackstageEcsStack.build ctx).bucket.bucket_name),
       ("BASE_URL",
        StrVal.concat (StrVal.lit "http://")
          (BackstageEcsStack.build ctx).alb.load_balancer_dns_name)] ∧
    (BackstageEcsStack.build ctx).container.secrets =
      [("POSTGRES_PASSWORD",
        Secret.from_secrets_manager
          (BackstageEcsStack.build ctx).db_cluster.secret "password")] ∧
    (BackstageEcsStack.build ctx).db_cluster.credentials.fromGeneratedSecret =
      true :=
  ⟨rfl, rfl, rfl⟩

/-- C8: For every constructed stack, exactly one named output value is
declared, and its value is the DNS name of the load balancer. -/
theorem single_output_alb_dns (ctx : DeployContext) :
    (BackstageEcsStack.build ctx).outputs =
      [{ logicalName := "LoadBalancerDNS",
         value := (BackstageEcsStack.build ctx).alb.load_balancer_dns_name }] ∧
    (BackstageEcsStack.build ctx).outputs.length = 1 :=
  ⟨rfl, rfl⟩

/-- C9: For every constructed stack, the service's desired replica count is
exactly 1 and the service is attached to exactly one security group, the
ECS service security group. -/
theorem service_one_replica_one_sg (ctx : DeployContext) :
    (BackstageEcsStack.build ctx).fargate_service.desiredCount = 1 ∧
    (BackstageEcsStack.build ctx).fargate_service.securityGroupRefs =
      [(BackstageEcsStack.build ctx).ecs_sg.logicalName] :=
  ⟨rfl, rfl⟩

/-- C10: For every constructed stack, the database cluster declares the
serverless capacity range with minimum 0.5 and maximum 4, and the minimum
does not exceed the maximum. -/
theorem db_capacity_range_valid (ctx : DeployContext) :
    (BackstageEcsStack.build ctx).db_cluster.serverlessV2MinCapacity =
      (0.5 : Rat) ∧
    (BackstageEcsStack.build ctx).db_cluster.serverlessV2MaxCapacity =
      (4 : Rat) ∧
    (BackstageEcsStack.build ctx).db_cluster.serverlessV2MinCapacity ≤
      (BackstageEcsStack.build ctx).db_cluster.serverlessV2MaxCapacity := by
  refine ⟨rfl, rfl, ?_⟩
  rw [show (BackstageEcsStack.build ctx).db_cluster.serverlessV2MinCapacity =
        (0.5 : Rat) from rfl,
      show (BackstageEcsStack.build ctx).db_cluster.serverlessV2MaxCapacity =
        (4 : Rat) from rfl]
  norm_num

end Backstage
